import Mathlib

/-!
Shallow embedding of the connection-handling core of sish (src/utils/conn.go):
session teardown (CleanUp), non-blocking message delivery (SendMessage),
the tee-capturing byte source (TeeConn / NewTeeConn), the TLS hello sniffer
(PeakTLSHello), the idle-timeout wrapper (IdleTimeoutConn) and the
bidirectional relay (CopyBoth).

Machine-level Go details that do not affect the claims (byte slices, exact
durations) are modelled abstractly: byte streams are lists of read results,
time instants are naturals, errors are optional strings. External library
behaviour (crypto/tls handshake, the network connection) is universally
quantified, never fixed.
-/

/-! ## Tee-capturing byte source (TeeConn, NewTeeConn) -/

/-- The result of one Read call on the underlying io.Reader: the bytes it
delivered (length = the Go return value n) and the error it returned. -/
structure ReadChunk where
  bytes : List Nat
  err : Option String
deriving Repr, DecidableEq

/-- Model of TeeConn: only the capture buffer is state; the wrapped reader is
supplied per read as the chunk it yields. -/
structure TeeConn where
  buffer : List Nat
deriving Repr, DecidableEq

/-- NewTeeConn: starts with an empty capture buffer
(bytes.NewBuffer([]byte\x7b\x7d)). -/
def NewTeeConn : TeeConn := ⟨[]⟩

/-- TeeConn.Read delegates to io.TeeReader(reader, buffer).Read: the bytes the
underlying reader returned are appended to the buffer (a bytes.Buffer write,
which never fails) before they are handed to the caller together with the
underlying error. -/
def TeeConn.read (c : TeeConn) (chunk : ReadChunk) : (List Nat × Option String) × TeeConn :=
  ((chunk.bytes, chunk.err), ⟨c.buffer ++ chunk.bytes⟩)

/-- GetBuffer returns the teed buffer. -/
def TeeConn.getBuffer (c : TeeConn) : List Nat := c.buffer

/-- A sequence of Read calls against the tee, the wrapped source yielding the
given chunks in order; returns the list of byte slices handed to callers and
the final tee state. -/
def TeeConn.readAll (c : TeeConn) : List ReadChunk → List (List Nat) × TeeConn
  | [] => ([], c)
  | ch :: rest =>
    let step := c.read ch
    let tail := step.2.readAll rest
    (step.1.1 :: tail.1, tail.2)

theorem TeeConn.readAll_spec (c : TeeConn) (chunks : List ReadChunk) :
    (c.readAll chunks).1 = chunks.map ReadChunk.bytes ∧
    (c.readAll chunks).2.buffer = c.buffer ++ (chunks.map ReadChunk.bytes).flatten := by
  induction chunks generalizing c with
  | nil => simp [TeeConn.readAll]
  | cons ch rest ih =>
    have h := ih ⟨c.buffer ++ ch.bytes⟩
    simp [TeeConn.readAll, TeeConn.read, h.1, h.2]

/-! ## TLS hello sniffer (PeakTLSHello) -/

/-- The fields of tls.ClientHelloInfo that callers inspect. -/
structure ClientHelloInfo where
  serverName : String
deriving Repr, DecidableEq

/-- Abstract model of the external crypto/tls server handshake that
PeakTLSHello drives. Its only access to the byte source is the TeeConn it is
handed, so its observable input behaviour is which read results of the source
it consumes: consumed is how many Read calls it makes (each yielding the next
chunk of the source), hello is what the GetConfigForClient callback stored in
the tlsHello variable, and hsErr the error Handshake returned (the synthetic
config supplies no certificate, so the handshake aborts after the hello). All
three may depend arbitrarily on the source. -/
structure HandshakeModel where
  consumed : List ReadChunk → Nat
  hello : List ReadChunk → Option ClientHelloInfo
  hsErr : List ReadChunk → Option String

/-- PeakTLSHello wraps the reader in NewTeeConn, runs the handshake against
the tee (which therefore reads exactly the chunks the handshake consumes,
through TeeConn.read), and returns the recorded hello, the tee buffer, and
the handshake error, unconditionally, as in
return tlsHello, teeConn.GetBuffer(), err. -/
def PeakTLSHello (hs : HandshakeModel) (source : List ReadChunk) :
    Option ClientHelloInfo × List Nat × Option String :=
  let teeConn := NewTeeConn
  let run := teeConn.readAll (source.take (hs.consumed source))
  (hs.hello source, run.2.getBuffer, hs.hsErr source)

/-! ## Session state: SendMessage and CleanUp -/

/-- The environment one iteration of the non-blocking SendMessage select sees:
whether receiving from s.Close is ready (that channel is closed), whether
sending on s.Messages is ready (buffer space or a waiting receiver), and the
scheduler tie-break used when both are ready (Go select picks a ready case
uniformly at random; we quantify over the choice). -/
structure SelectEnv where
  closeReady : Bool
  sendReady : Bool
  pickClose : Bool
deriving Repr, DecidableEq

/-- How a non-blocking SendMessage call ended. -/
inductive SendResult where
  | sent
  | closedSignal
  | dropped
deriving Repr, DecidableEq

/-- Observable outcome of the non-blocking send loop: how it ended, how many
select attempts ran, and how many 100 ms sleeps were performed. -/
structure SendOutcome where
  result : SendResult
  attempts : Nat
  sleeps : Nat
deriving Repr, DecidableEq

/-- The loop for i := 0; i < 5 of SendMessage with block = false. fuel is
5 - i, and t is the number of select attempts already made (the default
branch is the only one that increments i, and it first sleeps 100 ms). A
ready s.Close receive or a ready s.Messages send returns from the function;
otherwise the default branch sleeps and retries. -/
def sendLoop (env : Nat → SelectEnv) : Nat → Nat → SendOutcome
  | 0, t => ⟨SendResult.dropped, t, t⟩
  | fuel + 1, t =>
    let a := env t
    if a.closeReady && (!a.sendReady || a.pickClose) then ⟨SendResult.closedSignal, t + 1, t⟩
    else if a.sendReady then ⟨SendResult.sent, t + 1, t⟩
    else sendLoop env fuel (t + 1)

/-- SendMessage with block = false: up to 5 iterations, starting at attempt 0
with i = 0. -/
def sendMessageNonBlocking (env : Nat → SelectEnv) : SendOutcome :=
  sendLoop env 5 0

/-- Semantics of the blocking branch of SendMessage (block = true), the bare
channel send s.Messages <- message: it completes exactly when the Messages
channel is ready (buffer space or a receiver) at some time; it does not
observe s.Close. -/
def blockingSendCompletes (ready : Nat → Bool) : Prop := ∃ t, ready t = true

/-- Termination of a SendMessage call: the block = true branch terminates
exactly when the blocking channel send completes; the block = false branch is
a bounded loop and always terminates. -/
def sendMessageTerminates (block : Bool) (ready : Nat → Bool) : Prop :=
  if block then blockingSendCompletes ready else True

/-- The session-tracker state consumed by CleanUp: the keys of the
State.SSHConnections concurrent map (remote address strings). -/
structure TrackerState where
  sshConnections : List String
deriving Repr, DecidableEq

/-- The lifecycle fields of SSHConnection that CleanUp touches. closedDone
models whether the sync.Once s.Closed has fired; closeChanClosed whether the
s.Close channel has been closed; connClosed whether the underlying
ssh.ServerConn was closed. -/
structure SSHConnectionState where
  remoteAddr : String
  user : String
  closedDone : Bool
  closeChanClosed : Bool
  connClosed : Bool
deriving Repr, DecidableEq

/-- Everything CleanUp reads or writes: the session, the tracker, and the log
sink (one line per log.Println call). -/
structure CleanUpState where
  conn : SSHConnectionState
  tracker : TrackerState
  logLines : List String
deriving Repr, DecidableEq

/-- CleanUp is s.Closed.Do(body). The sync.Once runs the body only on the
first invocation; the body closes s.Close, closes the SSH connection, deletes
the session from the tracker by remote address, and logs one line. Concurrent
invocations are serialized by the Once, so any concurrent schedule of N calls
is a sequence of N applications of this step. -/
def cleanUp (s : CleanUpState) : CleanUpState :=
  if s.conn.closedDone then s
  else
    { conn := { s.conn with closedDone := true, closeChanClosed := true, connClosed := true },
      tracker := ⟨s.tracker.sshConnections.filter (fun k => k ≠ s.conn.remoteAddr)⟩,
      logLines := s.logLines ++
        ["Closed SSH connection for: " ++ s.conn.remoteAddr ++ " user: " ++ s.conn.user] }

/-! ## Idle-timeout wrapper (IdleTimeoutConn) -/

/-- Model of the wrapped net.Conn: what SetReadDeadline and SetWriteDeadline
return for a given absolute deadline, and the results of one underlying Read
and Write. -/
structure ConnModel where
  setReadDeadlineErr : Nat → Option String
  setWriteDeadlineErr : Nat → Option String
  readResult : Nat × Option String
  writeResult : Nat × Option String

/-- Observable operations performed on the wrapped connection, in order. -/
inductive ConnEvent where
  | setReadDeadline (t : Nat)
  | underlyingRead
  | setWriteDeadline (t : Nat)
  | underlyingWrite
deriving Repr, DecidableEq

/-- IdleTimeoutConn wraps a connection. -/
structure IdleTimeoutConn where
  Conn : ConnModel

/-- IdleTimeoutConn.Read: first SetReadDeadline(now + idle-connection-timeout)
on the wrapped connection; if that errs, return (0, err) without reading;
otherwise perform the underlying Read. Returns the (n, err) result and the
trace of operations on the wrapped connection. -/
def IdleTimeoutConn.Read (i : IdleTimeoutConn) (now timeout : Nat) :
    (Nat × Option String) × List ConnEvent :=
  match i.Conn.setReadDeadlineErr (now + timeout) with
  | some e => ((0, some e), [ConnEvent.setReadDeadline (now + timeout)])
  | none => (i.Conn.readResult,
      [ConnEvent.setReadDeadline (now + timeout), ConnEvent.underlyingRead])

/-- IdleTimeoutConn.Write: the mirror of Read with the write deadline and the
underlying Write. -/
def IdleTimeoutConn.Write (i : IdleTimeoutConn) (now timeout : Nat) :
    (Nat × Option String) × List ConnEvent :=
  match i.Conn.setWriteDeadlineErr (now + timeout) with
  | some e => ((0, some e), [ConnEvent.setWriteDeadline (now + timeout)])
  | none => (i.Conn.writeResult,
      [ConnEvent.setWriteDeadline (now + timeout), ConnEvent.underlyingWrite])

/-! ## Bidirectional relay (CopyBoth) -/

/-- Observable actions of one CopyBoth direction, in program order. The copy
direction flag is true for copyToReader (io.Copy(reader, tcon)) and false for
copyToWriter (io.Copy(tcon, reader)). -/
inductive RelayAction where
  | copyDone (toReader : Bool) (err : Option String)
  | logCopyErr (msg : String)
  | closeReader
  | closeWriter
deriving Repr, DecidableEq

/-- closeBoth of CopyBoth: reader.Close() then writer.Close(). Both calls are
made unconditionally and their error results (the arguments) are discarded:
the emitted actions do not depend on them. -/
def closeBoth (readerCloseErr writerCloseErr : Option String) : List RelayAction :=
  [RelayAction.closeReader, RelayAction.closeWriter]

/-- One copy direction of CopyBoth: io.Copy terminates with copyErr (none on
clean EOF); if it erred and the debug option is set the error is logged; then
closeBoth runs. -/
def copyDirection (toReader : Bool) (copyErr : Option String) (debug : Bool)
    (readerCloseErr writerCloseErr : Option String) : List RelayAction :=
  RelayAction.copyDone toReader copyErr ::
    ((match copyErr, debug with
      | some e, true => [RelayAction.logCopyErr e]
      | _, _ => []) ++ closeBoth readerCloseErr writerCloseErr)

/-- CopyBoth: chooses tcon once (the idle-timeout wrapper around writer when
the idle-connection option is set, else writer itself; this affects the byte
copying, not the termination structure), launches copyToReader on a
goroutine, and runs copyToWriter locally. Each direction terminates with its
own copy outcome and then performs its own closeBoth. The result is the pair
of the two directions action traces (goroutine first). -/
def CopyBoth (idleConn debug : Bool) (toReaderErr toWriterErr : Option String)
    (readerCloseErr writerCloseErr : Option String) : List RelayAction × List RelayAction :=
  (copyDirection true toReaderErr debug readerCloseErr writerCloseErr,
   copyDirection false toWriterErr debug readerCloseErr writerCloseErr)

/-! ## Helper lemmas -/

theorem cleanUp_closedDone (s : CleanUpState) : (cleanUp s).conn.closedDone = true := by
  by_cases h : s.conn.closedDone <;> simp [cleanUp, h]

theorem cleanUp_of_closedDone (s : CleanUpState) (h : s.conn.closedDone = true) :
    cleanUp s = s := by
  simp [cleanUp, h]

theorem cleanUp_idem (s : CleanUpState) : cleanUp (cleanUp s) = cleanUp s :=
  cleanUp_of_closedDone _ (cleanUp_closedDone s)

theorem sendLoop_all_full (env : Nat → SelectEnv)
    (hclose : ∀ u, (env u).closeReady = false)
    (hfull : ∀ u, (env u).sendReady = false) :
    ∀ fuel t, sendLoop env fuel t = ⟨SendResult.dropped, t + fuel, t + fuel⟩ := by
  intro fuel
  induction fuel with
  | zero => intro t; simp [sendLoop]
  | succ m ih =>
    intro t
    rw [show sendLoop env (m + 1) t = sendLoop env m (t + 1) by
      simp [sendLoop, hclose t, hfull t]]
    rw [ih (t + 1)]
    have : t + 1 + m = t + (m + 1) := by omega
    rw [this]

theorem sendLoop_close_at (env : Nat → SelectEnv) (k : Nat)
    (hfull : ∀ u, (env u).sendReady = false)
    (hclose : ∀ u, (env u).closeReady = decide (k ≤ u)) :
    ∀ fuel t, t ≤ k → k < t + fuel →
      sendLoop env fuel t = ⟨SendResult.closedSignal, k + 1, k⟩ := by
  intro fuel
  induction fuel with
  | zero => intro t h1 h2; omega
  | succ m ih =>
    intro t h1 h2
    by_cases hk : t = k
    · subst hk
      have hcr : (env t).closeReady = true := by rw [hclose]; simp
      simp [sendLoop, hcr, hfull t]
    · have hcr : (env t).closeReady = false := by
        rw [hclose]
        simp only [decide_eq_false_iff_not]
        omega
      rw [show sendLoop env (m + 1) t = sendLoop env m (t + 1) by
        simp [sendLoop, hcr, hfull t]]
      exact ih (t + 1) (by omega) (by omega)

/-! ## Claim theorems -/

/-- Claim C1: invoking CleanUp any number of times N >= 1 executes its body
(closing the shutdown signal, closing the SSH connection, deleting the session
from the tracker, logging) exactly once; every invocation after the first is a
no-op. Concurrent invocations are serialized by the sync.Once guard, so any
schedule of N calls is N sequential applications of the cleanUp step. -/
theorem cleanUp_exactly_once (s : CleanUpState) (n : Nat) (hn : 1 ≤ n) :
    cleanUp^[n] s = cleanUp s ∧
    (s.conn.closedDone = false →
      ((cleanUp^[n] s).logLines.length = s.logLines.length + 1 ∧
       (cleanUp^[n] s).conn.closeChanClosed = true ∧
       (cleanUp^[n] s).conn.connClosed = true ∧
       (cleanUp^[n] s).tracker.sshConnections
         = s.tracker.sshConnections.filter (fun k => k ≠ s.conn.remoteAddr))) := by
  obtain ⟨m, rfl⟩ : ∃ m, n = m + 1 := ⟨n - 1, by omega⟩
  have hiter : cleanUp^[m + 1] s = cleanUp s := by
    induction m with
    | zero => simp
    | succ j ih => rw [Function.iterate_succ_apply', ih (by omega), cleanUp_idem]
  refine ⟨hiter, fun hfresh => ?_⟩
  rw [hiter]
  simp [cleanUp, hfresh]

/-- Concrete session used to instantiate the CleanUp theorems. -/
def cleanUpExample : CleanUpState :=
  { conn := { remoteAddr := "10.0.0.7:50051", user := "tunnel", closedDone := false,
              closeChanClosed := false, connClosed := false },
    tracker := ⟨["10.0.0.7:50051", "10.0.0.8:50052"]⟩,
    logLines := [] }

/-- Witness for cleanUp_exactly_once at N = 3 on a fresh session. -/
theorem cleanUp_exactly_once_witness :
    cleanUp^[3] cleanUpExample = cleanUp cleanUpExample ∧
    (cleanUp^[3] cleanUpExample).logLines.length = 1 := by
  have h := cleanUp_exactly_once cleanUpExample 3 (by norm_num)
  refine ⟨h.1, ?_⟩
  rw [(h.2 rfl).1]
  simp [cleanUpExample]

/-- Claim C2: when the message channel is full at every attempt and the close
signal never fires, the non-blocking SendMessage makes exactly 5 enqueue
attempts with a 100 ms sleep after each failed one (so a sleep separates any
two consecutive attempts), then returns with the message dropped; the Go
function has no error return, so no error reaches the caller. -/
theorem sendMessage_nonblocking_drops (env : Nat → SelectEnv)
    (hclose : ∀ u, (env u).closeReady = false)
    (hfull : ∀ u, (env u).sendReady = false) :
    sendMessageNonBlocking env = ⟨SendResult.dropped, 5, 5⟩ := by
  rw [sendMessageNonBlocking, sendLoop_all_full env hclose hfull 5 0]

/-- Environment in which the channel is always full and the close signal
never fires. -/
def fullEnv : Nat → SelectEnv := fun _ => ⟨false, false, false⟩

/-- Witness for sendMessage_nonblocking_drops. -/
theorem sendMessage_nonblocking_drops_witness :
    sendMessageNonBlocking fullEnv = ⟨SendResult.dropped, 5, 5⟩ :=
  sendMessage_nonblocking_drops fullEnv (fun _ => rfl) (fun _ => rfl)

/-- Claim C8: if the close signal fires at attempt k < 5 while the channel
stays full, the non-blocking SendMessage returns at attempt k + 1 with the
message not sent, after only k sleeps, before exhausting its 5 attempts. -/
theorem sendMessage_close_cancels (env : Nat → SelectEnv) (k : Nat) (hk : k < 5)
    (hfull : ∀ u, (env u).sendReady = false)
    (hclose : ∀ u, (env u).closeReady = decide (k ≤ u)) :
    sendMessageNonBlocking env = ⟨SendResult.closedSignal, k + 1, k⟩ ∧ k + 1 ≤ 5 := by
  refine ⟨?_, by omega⟩
  rw [sendMessageNonBlocking]
  exact sendLoop_close_at env k hfull hclose 5 0 (by omega) (by omega)

/-- Environment in which the channel is always full and the close signal
fires just before the third attempt. -/
def closeAtTwoEnv : Nat → SelectEnv := fun t => ⟨decide (2 ≤ t), false, false⟩

/-- Witness for sendMessage_close_cancels at k = 2. -/
theorem sendMessage_close_cancels_witness :
    sendMessageNonBlocking closeAtTwoEnv = ⟨SendResult.closedSignal, 3, 2⟩ ∧ 3 ≤ 5 :=
  sendMessage_close_cancels closeAtTwoEnv 2 (by norm_num) (fun _ => rfl) (fun _ => rfl)

/-- Claim C9 counterexample: after the close signal has fired, a blocking
SendMessage (block = true) is a bare channel send that never observes the
close signal; with the Messages channel never ready it does not terminate,
refuting "every SendMessage call, with block true or false, terminates". -/
theorem sendMessage_blocking_after_close_diverges :
    ¬ sendMessageTerminates true (fun _ => false) := by
  simp [sendMessageTerminates, blockingSendCompletes]

/-- Claim C9 amended: after the close signal has fired, every non-blocking
SendMessage returns at its very first select attempt without reaching the
drop bound, hence terminates; a blocking SendMessage terminates exactly when
the Messages channel eventually becomes ready, which the close signal does
not guarantee. -/
theorem sendMessage_after_close (env : Nat → SelectEnv) (ready : Nat → Bool)
    (hc : (env 0).closeReady = true) :
    ((sendMessageNonBlocking env).attempts = 1 ∧
     (sendMessageNonBlocking env).result ≠ SendResult.dropped) ∧
    sendMessageTerminates false ready ∧
    (sendMessageTerminates true ready ↔ ∃ u, ready u = true) := by
  refine ⟨?_, by simp [sendMessageTerminates], by simp [sendMessageTerminates,
    blockingSendCompletes]⟩
  have h5 : sendMessageNonBlocking env = sendLoop env (4 + 1) 0 := rfl
  rw [h5]
  cases hs : (env 0).sendReady <;> cases hp : (env 0).pickClose <;>
    simp [sendLoop, hc, hs, hp]

/-- Environment after close: the close receive is always ready, the channel
is full. -/
def afterCloseEnv : Nat → SelectEnv := fun _ => ⟨true, false, false⟩

/-- Witness for sendMessage_after_close on a Messages channel that becomes
ready at time 4. -/
theorem sendMessage_after_close_witness :
    ((sendMessageNonBlocking afterCloseEnv).attempts = 1 ∧
     (sendMessageNonBlocking afterCloseEnv).result ≠ SendResult.dropped) ∧
    sendMessageTerminates false (fun u => decide (u = 4)) ∧
    (sendMessageTerminates true (fun u => decide (u = 4)) ↔
      ∃ u, (fun v => decide (v = 4)) u = true) :=
  sendMessage_after_close afterCloseEnv (fun u => decide (u = 4)) rfl

/-- Claim C4: for every byte sequence read through a TeeConn created by
NewTeeConn, in arbitrary chunk sizes, the concatenation of all bytes returned
to callers by Read equals the content of the buffer returned by GetBuffer,
and both equal exactly the bytes produced by the wrapped source. -/
theorem teeConn_fidelity (chunks : List ReadChunk) :
    (NewTeeConn.readAll chunks).1.flatten = (NewTeeConn.readAll chunks).2.getBuffer ∧
    (NewTeeConn.readAll chunks).2.getBuffer = (chunks.map ReadChunk.bytes).flatten := by
  have h := TeeConn.readAll_spec NewTeeConn chunks
  have hb : (NewTeeConn.readAll chunks).2.getBuffer = (chunks.map ReadChunk.bytes).flatten := by
    rw [TeeConn.getBuffer, h.2]
    simp [NewTeeConn]
  exact ⟨by rw [h.1, hb], hb⟩

/-- Claim C10: when the underlying reader returns bytes together with an
error in the same call, TeeConn.Read still appends those bytes to the capture
buffer and returns them with the error, so the buffer includes every byte
ever handed to a caller even on error-terminated reads. -/
theorem teeConn_read_error_still_captures (c : TeeConn) (bs : List Nat) (e : String) :
    (c.read ⟨bs, some e⟩).1 = (bs, some e) ∧
    (c.read ⟨bs, some e⟩).2.getBuffer = c.getBuffer ++ bs := by
  simp [TeeConn.read, TeeConn.getBuffer]

/-- Claim C3: PeakTLSHello returns a buffer containing exactly the bytes the
partial TLS handshake consumed from the source, nothing more and nothing
less, so replaying the buffer followed by the remaining stream reproduces the
source byte for byte. -/
theorem peakTLSHello_byte_exact (hs : HandshakeModel) (source : List ReadChunk) :
    (PeakTLSHello hs source).2.1
      = ((source.take (hs.consumed source)).map ReadChunk.bytes).flatten ∧
    (PeakTLSHello hs source).2.1
        ++ ((source.drop (hs.consumed source)).map ReadChunk.bytes).flatten
      = (source.map ReadChunk.bytes).flatten := by
  have h := TeeConn.readAll_spec NewTeeConn (source.take (hs.consumed source))
  have hb : (PeakTLSHello hs source).2.1
      = ((source.take (hs.consumed source)).map ReadChunk.bytes).flatten := by
    show (NewTeeConn.readAll (source.take (hs.consumed source))).2.getBuffer = _
    rw [TeeConn.getBuffer, h.2]
    simp [NewTeeConn]
  refine ⟨hb, ?_⟩
  rw [hb, ← List.flatten_append, ← List.map_append, List.take_append_drop]

/-- Handshake behaviour in the intended scenario: the ClientHello is captured
and the partial handshake then aborts for lack of a certificate. -/
def capturedHandshake : HandshakeModel :=
  { consumed := fun _ => 1,
    hello := fun _ => some ⟨"example.com"⟩,
    hsErr := fun _ => some "tls: no certificates configured" }

/-- A source whose first chunk is the hello record and whose second chunk is
the rest of the stream. -/
def helloSource : List ReadChunk := [⟨[22, 3, 1, 0, 5], none⟩, ⟨[1, 2, 3], none⟩]

/-- Claim C5 counterexample: a run in which the hello was captured (returned
helloInfo is not null) and PeakTLSHello nevertheless returns a non-null
error, because it passes the handshake error through unconditionally; this
refutes "surfaces an error only when no ClientHello was observed". -/
theorem peakTLSHello_error_surfaced_cex :
    (PeakTLSHello capturedHandshake helloSource).1 ≠ none ∧
    (PeakTLSHello capturedHandshake helloSource).2.2 ≠ none := by
  simp [PeakTLSHello, capturedHandshake, helloSource]

/-- Claim C5 amended: PeakTLSHello returns the handshake error to its caller
unconditionally; in particular, when a hello was captured and the expected
partial-handshake failure occurred, the caller receives the non-null hello
together with that non-null error, and distinguishing the expected failure
from a genuine capture failure (null helloInfo) is left to the caller. -/
theorem peakTLSHello_error_passthrough (hs : HandshakeModel) (source : List ReadChunk)
    (hh : hs.hello source ≠ none) (he : hs.hsErr source ≠ none) :
    (PeakTLSHello hs source).1 ≠ none ∧
    (PeakTLSHello hs source).2.2 = hs.hsErr source ∧
    (PeakTLSHello hs source).2.2 ≠ none :=
  ⟨hh, rfl, he⟩

/-- Witness for peakTLSHello_error_passthrough. -/
theorem peakTLSHello_error_passthrough_witness :
    (PeakTLSHello capturedHandshake helloSource).1 ≠ none ∧
    (PeakTLSHello capturedHandshake helloSource).2.2
      = capturedHandshake.hsErr helloSource ∧
    (PeakTLSHello capturedHandshake helloSource).2.2 ≠ none :=
  peakTLSHello_error_passthrough capturedHandshake helloSource
    (by simp [capturedHandshake]) (by simp [capturedHandshake])

/-- Claim C6: whenever either CopyBoth direction terminates, on clean EOF or
on error, both the reader and the writer are closed; the closes are performed
unconditionally, and the errors the two Close calls return are ignored: the
traces are the same as with error-free closes. -/
theorem copyBoth_closes_both (idleConn debug : Bool)
    (toReaderErr toWriterErr readerCloseErr writerCloseErr : Option String) :
    (RelayAction.closeReader ∈ (CopyBoth idleConn debug toReaderErr toWriterErr
        readerCloseErr writerCloseErr).1 ∧
     RelayAction.closeWriter ∈ (CopyBoth idleConn debug toReaderErr toWriterErr
        readerCloseErr writerCloseErr).1) ∧
    (RelayAction.closeReader ∈ (CopyBoth idleConn debug toReaderErr toWriterErr
        readerCloseErr writerCloseErr).2 ∧
     RelayAction.closeWriter ∈ (CopyBoth idleConn debug toReaderErr toWriterErr
        readerCloseErr writerCloseErr).2) ∧
    CopyBoth idleConn debug toReaderErr toWriterErr readerCloseErr writerCloseErr
      = CopyBoth idleConn debug toReaderErr toWriterErr none none := by
  refine ⟨⟨?_, ?_⟩, ⟨?_, ?_⟩, rfl⟩ <;>
    cases toReaderErr <;> cases toWriterErr <;> cases debug <;>
      simp [CopyBoth, copyDirection, closeBoth]

/-- Claim C7: every Read (resp. Write) on IdleTimeoutConn first sets a read
(resp. write) deadline of now + timeout on the wrapped connection and only
then performs the underlying operation; if setting the deadline errs, the
call returns (0, that error) without attempting the underlying read or
write. -/
theorem idleTimeoutConn_deadline_first (i : IdleTimeoutConn) (now timeout : Nat) :
    ((i.Read now timeout).2.head? = some (ConnEvent.setReadDeadline (now + timeout)) ∧
     (∀ e, i.Conn.setReadDeadlineErr (now + timeout) = some e →
        i.Read now timeout = ((0, some e), [ConnEvent.setReadDeadline (now + timeout)])) ∧
     (i.Conn.setReadDeadlineErr (now + timeout) = none →
        i.Read now timeout = (i.Conn.readResult,
          [ConnEvent.setReadDeadline (now + timeout), ConnEvent.underlyingRead]))) ∧
    ((i.Write now timeout).2.head? = some (ConnEvent.setWriteDeadline (now + timeout)) ∧
     (∀ e, i.Conn.setWriteDeadlineErr (now + timeout) = some e →
        i.Write now timeout = ((0, some e), [ConnEvent.setWriteDeadline (now + timeout)])) ∧
     (i.Conn.setWriteDeadlineErr (now + timeout) = none →
        i.Write now timeout = (i.Conn.writeResult,
          [ConnEvent.setWriteDeadline (now + timeout), ConnEvent.underlyingWrite]))) := by
  refine ⟨⟨?_, fun e he => ?_, fun hn => ?_⟩, ⟨?_, fun e he => ?_, fun hn => ?_⟩⟩
  · rcases h : i.Conn.setReadDeadlineErr (now + timeout) with _ | e <;>
      simp [IdleTimeoutConn.Read, h]
  · simp [IdleTimeoutConn.Read, he]
  · simp [IdleTimeoutConn.Read, hn]
  · rcases h : i.Conn.setWriteDeadlineErr (now + timeout) with _ | e <;>
      simp [IdleTimeoutConn.Write, h]
  · simp [IdleTimeoutConn.Write, he]
  · simp [IdleTimeoutConn.Write, hn]

/-- A wrapped connection whose deadline setters fail. -/
def deadlineFailConn : ConnModel :=
  { setReadDeadlineErr := fun _ => some "use of closed network connection",
    setWriteDeadlineErr := fun _ => some "use of closed network connection",
    readResult := (3, none),
    writeResult := (3, none) }

/-- Witness for idleTimeoutConn_deadline_first: with a failing deadline
setter, Read returns (0, the error) and never touches the underlying read. -/
theorem idleTimeoutConn_deadline_first_witness :
    IdleTimeoutConn.Read ⟨deadlineFailConn⟩ 100 30
      = ((0, some "use of closed network connection"),
         [ConnEvent.setReadDeadline 130]) :=
  (idleTimeoutConn_deadline_first ⟨deadlineFailConn⟩ 100 30).1.2.1
    "use of closed network connection" rfl
